import Mathlib

/-!
# Verification of the School Portal backend (src/main.py, src/schemas.py)

Shallow embedding of the backend's data model and endpoint handlers in Lean 4.

Modelling conventions:
* Monetary amounts (`float` in Python) are modelled as rationals `ℚ`:
  the revenue computation is pure arithmetic over the stored values.
* Stored documents are modelled as structures; fields that a raw document may
  lack (`amount` read via `o.get("amount", 0)` in `revenue`) are `Option`s.
* The Mongo handle `db` is `Option Store`: `none` is the "never connected"
  state in which `main.py` raises `HTTPException(500, "Database not configured")`.
* `bson.ObjectId` values are 24-character hexadecimal strings; a Mongo `_id`
  is either such an ObjectId or a raw string (`BsonId`).
* The functions `create_document` / `get_documents` live in `database.py`,
  which is not part of src/; they are modelled from the spec (see the
  `Modelled from the spec:` doc comments below).
* Fallible handlers return `Except ApiError`; handlers that write return the
  updated `Store` alongside the HTTP response body, making writes explicit.
-/

/-- A hexadecimal digit, as accepted by Python's `bytes.fromhex`. -/
def isHexChar (c : Char) : Bool :=
  c.isDigit || ('a' ≤ c && c ≤ 'f') || ('A' ≤ c && c ≤ 'F')

/-- Model of `bson.ObjectId.is_valid` on a string argument: a 24-character hex string. -/
def isValidObjectId (s : String) : Bool :=
  s.length == 24 && s.data.all isHexChar

/-- A Mongo `_id` value: either a typed ObjectId (carrying its 24-char hex
rendering) or a raw string. `str(_id)` is `BsonId.render`. -/
inductive BsonId where
  | oid (hex : String)
  | str (raw : String)
  deriving DecidableEq, Repr

/-- Rendering `str(_id)`: both representations render to their underlying string. -/
def BsonId.render : BsonId → String
  | .oid h => h
  | .str r => r

/-! ## Stored documents (raw Mongo documents, one structure per collection) -/

/-- A document of the `school` collection. -/
structure SchoolDoc where
  mongoId : BsonId
  name : String
  email : String
  password : String
  address : Option String := none
  phone : Option String := none
  deriving DecidableEq, Repr

/-- A document of the `order` collection. `amount` may be absent in a raw
document; `revenue` reads it as `o.get("amount", 0)`. -/
structure OrderDoc where
  school_id : String
  order_number : String := ""
  amount : Option ℚ
  status : String
  items : Option (List String) := none
  deriving DecidableEq, Repr

/-- A document of the `payoutrequest` collection. -/
structure PayoutDoc where
  school_id : String
  amount : Option ℚ
  bank_name : String := ""
  account_holder : String := ""
  account_number : String := ""
  ifsc : String := ""
  status : String
  deriving DecidableEq, Repr

/-- The document store: the three collections used by `main.py`. -/
structure Store where
  school : List SchoolDoc
  order : List OrderDoc
  payoutrequest : List PayoutDoc
  deriving DecidableEq, Repr

/-! ## Request/response models (the Pydantic models of `schemas.py`/`main.py`) -/

/-- Pydantic model `School` (schemas.py). -/
structure School where
  name : String
  email : String
  password : String
  address : Option String := none
  phone : Option String := none
  deriving DecidableEq, Repr

/-- Pydantic model `Order` (schemas.py); `status` defaults to `"paid"`. -/
structure Order where
  school_id : String
  order_number : String
  amount : ℚ
  status : String := "paid"
  items : Option (List String) := none
  deriving DecidableEq, Repr

/-- Pydantic model `PayoutRequest` (schemas.py); `status` defaults to `"pending"`. -/
structure PayoutRequest where
  school_id : String
  amount : ℚ
  bank_name : String
  account_holder : String
  account_number : String
  ifsc : String
  status : String := "pending"
  deriving DecidableEq, Repr

/-- Model of `LoginRequest` (main.py). -/
structure LoginRequest where
  email : String
  password : String
  deriving DecidableEq, Repr

/-- Model of `LoginResponse` (main.py). -/
structure LoginResponse where
  school_id : String
  name : String
  email : String
  deriving DecidableEq, Repr

/-- Model of `RevenueSummary` (main.py). -/
structure RevenueSummary where
  total_orders : Nat
  total_revenue : ℚ
  pending_payout : ℚ
  deriving DecidableEq, Repr

/-- Model of `PayoutCreateResponse` (main.py). -/
structure PayoutCreateResponse where
  request_id : String
  status : String
  deriving DecidableEq, Repr

/-- Errors surfaced to the caller: `http code detail` models
`HTTPException(status_code=code, detail=detail)`; `validation field` models the
Pydantic 422 response identifying the offending field. -/
inductive ApiError where
  | http (code : Nat) (detail : String)
  | validation (field : String)
  deriving DecidableEq, Repr

/-! ## Modelled store adapter (`database.py`, not in src/) -/

/-- Modelled from the spec: `create_document` of `database.py` (absent from
src/) on the `school` collection — the Document Store Adapter "provides
insert-one" queries, writes the given document under a generated id, returns
that id, and yields the 500-equivalent "store not configured" fault when the
connection was never established. The generated id is passed in as `nid`. -/
def insertSchool (db : Option Store) (nid : BsonId) (s : School) :
    Except ApiError (String × Store) :=
  match db with
  | none => .error (.http 500 "Database not configured")
  | some st =>
      let doc : SchoolDoc :=
        { mongoId := nid, name := s.name, email := s.email,
          password := s.password, address := s.address, phone := s.phone }
      .ok (nid.render, { st with school := st.school ++ [doc] })

/-- Modelled from the spec: `create_document` of `database.py` (absent from
src/) on the `order` collection; inserts the given document and returns the
generated id (`nid`), faulting when the store was never connected. -/
def insertOrder (db : Option Store) (nid : BsonId) (o : Order) :
    Except ApiError (String × Store) :=
  match db with
  | none => .error (.http 500 "Database not configured")
  | some st =>
      let doc : OrderDoc :=
        { school_id := o.school_id, order_number := o.order_number,
          amount := some o.amount, status := o.status, items := o.items }
      .ok (nid.render, { st with order := st.order ++ [doc] })

/-- Modelled from the spec: `create_document` of `database.py` (absent from
src/) on the `payoutrequest` collection; inserts the given document and
returns the generated id (`nid`), faulting when the store was never
connected. -/
def insertPayout (db : Option Store) (nid : BsonId) (p : PayoutRequest) :
    Except ApiError (String × Store) :=
  match db with
  | none => .error (.http 500 "Database not configured")
  | some st =>
      let doc : PayoutDoc :=
        { school_id := p.school_id, amount := some p.amount,
          bank_name := p.bank_name, account_holder := p.account_holder,
          account_number := p.account_number, ifsc := p.ifsc,
          status := p.status }
      .ok (nid.render, { st with payoutrequest := st.payoutrequest ++ [doc] })

/-! ## Endpoint handlers (main.py) -/

/-- Handler for `POST /api/auth/signup` (main.py `signup`): duplicate-email check
(`find_one({"email": school.email})` when the store handle is truthy), then
`create_document("school", school)`. -/
def signup (db : Option Store) (nid : BsonId) (school : School) :
    Except ApiError (Store × LoginResponse) :=
  let existing : Option SchoolDoc :=
    match db with
    | some st => st.school.find? (fun d => decide (d.email = school.email))
    | none => none
  match existing with
  | some _ => .error (.http 400 "Email already registered")
  | none =>
      match insertSchool db nid school with
      | .error e => .error e
      | .ok (inserted_id, st') =>
          .ok (st', { school_id := inserted_id, name := school.name,
                      email := school.email })

/-- Handler for `POST /api/auth/login` (main.py `login`): exact-match lookup on
email AND password; 401 on no match. -/
def login (db : Option Store) (req : LoginRequest) : Except ApiError LoginResponse :=
  match db with
  | none => .error (.http 500 "Database not configured")
  | some st =>
      match st.school.find?
          (fun d => decide (d.email = req.email) && decide (d.password = req.password)) with
      | none => .error (.http 401 "Invalid credentials")
      | some doc =>
          .ok { school_id := doc.mongoId.render, name := doc.name, email := doc.email }

/-- Handler for `POST /api/orders` (main.py `create_order`): writes the record and returns
the generated id, with no school-existence check and no explicit db-none guard
(the fault for an unconfigured store comes from `create_document`). -/
def create_order (db : Option Store) (nid : BsonId) (order : Order) :
    Except ApiError (Store × String) :=
  match insertOrder db nid order with
  | .error e => .error e
  | .ok (inserted_id, st') => .ok (st', inserted_id)

/-- Handler for `GET /api/revenue` (main.py `revenue`): paid-order scan, approved/paid
payout scan, `pending = max(total_revenue - paid_out, 0.0)`. -/
def revenue (db : Option Store) (school_id : String) :
    Except ApiError RevenueSummary :=
  match db with
  | none => .error (.http 500 "Database not configured")
  | some st =>
      let orders := st.order.filter
        (fun o => decide (o.school_id = school_id) && decide (o.status = "paid"))
      let total_revenue : ℚ := (orders.map (fun o => o.amount.getD 0)).sum
      let total_orders := orders.length
      let payouts := st.payoutrequest.filter
        (fun p => decide (p.school_id = school_id) &&
          (decide (p.status = "approved") || decide (p.status = "paid")))
      let paid_out : ℚ := (payouts.map (fun p => p.amount.getD 0)).sum
      let pending := max (total_revenue - paid_out) 0
      .ok { total_orders := total_orders, total_revenue := total_revenue,
            pending_payout := pending }

/-- The first, id-typed school lookup of main.py `create_payout`:
`db["school"].find_one({"_id": ObjectId(req.school_id)}) if ObjectId.is_valid(req.school_id) else None`. -/
def typedLookup (st : Store) (sid : String) : Option SchoolDoc :=
  if isValidObjectId sid then
    st.school.find? (fun d => decide (d.mongoId = BsonId.oid sid))
  else none

/-- The fallback raw-string lookup of main.py `create_payout`:
`db["school"].find_one({"_id": req.school_id})`. -/
def rawLookup (st : Store) (sid : String) : Option SchoolDoc :=
  st.school.find? (fun d => decide (d.mongoId = BsonId.str sid))

/-- Handler for `POST /api/payouts` (main.py `create_payout`): db-none guard, two-step
school lookup (typed id, then raw string), 404 when neither finds a school,
otherwise `create_document("payoutrequest", req)` and a response whose status
is the literal `"pending"`. -/
def create_payout (db : Option Store) (nid : BsonId) (req : PayoutRequest) :
    Except ApiError (Store × PayoutCreateResponse) :=
  match db with
  | none => .error (.http 500 "Database not configured")
  | some st =>
      let school :=
        match typedLookup st req.school_id with
        | some s => some s
        | none => rawLookup st req.school_id
      match school with
      | none => .error (.http 404 "School not found")
      | some _ =>
          match insertPayout (some st) nid req with
          | .error e => .error e
          | .ok (request_id, st') =>
              .ok (st', { request_id := request_id, status := "pending" })

/-- Modelled from the spec: `get_documents` of `database.py` (absent from
src/) on the `order` collection — the Document Store Adapter "provides
find-many queries filtered by equality predicates"; returns every order
document whose `school_id` equals the filter value. -/
def findOrderDocs (st : Store) (sid : String) : List OrderDoc :=
  st.order.filter (fun o => decide (o.school_id = sid))

/-- Modelled from the spec: `get_documents` of `database.py` (absent from
src/) on the `payoutrequest` collection; returns every payout-request
document whose `school_id` equals the filter value. -/
def findPayoutDocs (st : Store) (sid : String) : List PayoutDoc :=
  st.payoutrequest.filter (fun p => decide (p.school_id = sid))

/-- Rebuilding `Order(**{k: v for k, v in d.items() if k != "_id"})`
(main.py `list_orders`): fails when the raw document lacks the required
`amount` field (a Pydantic error inside the handler). -/
def docToOrder (d : OrderDoc) : Option Order :=
  match d.amount with
  | none => none
  | some a =>
      some { school_id := d.school_id, order_number := d.order_number,
             amount := a, status := d.status, items := d.items }

/-- Rebuilding `PayoutRequest(**{k: v for k, v in d.items() if k != "_id"})`
(main.py `list_payouts`): fails when the raw document lacks `amount`. -/
def docToPayoutReq (d : PayoutDoc) : Option PayoutRequest :=
  match d.amount with
  | none => none
  | some a =>
      some { school_id := d.school_id, amount := a, bank_name := d.bank_name,
             account_holder := d.account_holder,
             account_number := d.account_number, ifsc := d.ifsc,
             status := d.status }

/-- Handler for `GET /api/orders` (main.py `list_orders`): db-none guard, then
`get_documents("order", {"school_id": school_id})` and conversion of each raw
document back to the `Order` model; a conversion failure surfaces as an
unhandled in-handler error (500-equivalent). -/
def list_orders (db : Option Store) (school_id : String) :
    Except ApiError (List Order) :=
  match db with
  | none => .error (.http 500 "Database not configured")
  | some st =>
      match (findOrderDocs st school_id).mapM docToOrder with
      | none => .error (.http 500 "Internal Server Error")
      | some orders => .ok orders

/-- Handler for `GET /api/payouts` (main.py `list_payouts`): db-none guard,
then `get_documents("payoutrequest", {"school_id": school_id})` and
conversion of each raw document back to the `PayoutRequest` model. -/
def list_payouts (db : Option Store) (school_id : String) :
    Except ApiError (List PayoutRequest) :=
  match db with
  | none => .error (.http 500 "Database not configured")
  | some st =>
      match (findPayoutDocs st school_id).mapM docToPayoutReq with
      | none => .error (.http 500 "Internal Server Error")
      | some payouts => .ok payouts

/-! ## Validation layer (Pydantic field constraints of schemas.py) -/

/-- Model of `Order` field constraints (schemas.py): `amount: float = Field(..., ge=0)`;
the result names the offending field, as Pydantic's 422 body does. -/
def validate_order (o : Order) : Except String Order :=
  if o.amount < 0 then .error "amount" else .ok o

/-- Model of `PayoutRequest` field constraints (schemas.py): `amount: float = Field(..., ge=0)`. -/
def validate_payout_req (p : PayoutRequest) : Except String PayoutRequest :=
  if p.amount < 0 then .error "amount" else .ok p

/-- Model of `School` field constraints (schemas.py): `email: EmailStr` and
`password: str = Field(..., min_length=6)`, checked in declaration order.
`emailOK` is the email-syntax predicate of the external `email-validator`
library backing `EmailStr`, kept abstract as a parameter. -/
def validate_school (emailOK : String → Bool) (s : School) : Except String School :=
  if emailOK s.email = false then .error "email"
  else if s.password.length < 6 then .error "password"
  else .ok s

/-- The `POST /api/orders` pipeline: FastAPI runs Pydantic validation before
the handler, so the store is touched only after validation succeeds. -/
def post_order (db : Option Store) (nid : BsonId) (o : Order) :
    Except ApiError (Store × String) :=
  match validate_order o with
  | .error f => .error (.validation f)
  | .ok o' => create_order db nid o'

/-- The `POST /api/payouts` pipeline: Pydantic validation, then `create_payout`. -/
def post_payout (db : Option Store) (nid : BsonId) (p : PayoutRequest) :
    Except ApiError (Store × PayoutCreateResponse) :=
  match validate_payout_req p with
  | .error f => .error (.validation f)
  | .ok p' => create_payout db nid p'

/-- The `POST /api/auth/signup` pipeline: Pydantic validation, then `signup`. -/
def post_signup (emailOK : String → Bool) (db : Option Store) (nid : BsonId)
    (s : School) : Except ApiError (Store × LoginResponse) :=
  match validate_school emailOK s with
  | .error f => .error (.validation f)
  | .ok s' => signup db nid s'

/-! ## Spec-side reconciliation formula (independent recursive definitions) -/

/-- Count of a school's paid orders, written as a direct recursion (the spec's
"count of that school's Order records with status == paid"). -/
def countPaid : List OrderDoc → String → Nat
  | [], _ => 0
  | o :: rest, sid =>
      (if o.school_id = sid ∧ o.status = "paid" then 1 else 0) + countPaid rest sid

/-- Sum of `amount` over a school's paid orders (an absent amount reads as 0),
written as a direct recursion. -/
def sumPaid : List OrderDoc → String → ℚ
  | [], _ => 0
  | o :: rest, sid =>
      (if o.school_id = sid ∧ o.status = "paid" then o.amount.getD 0 else 0)
        + sumPaid rest sid

/-- Sum of `amount` over a school's payout requests with status in
`{"approved", "paid"}`, written as a direct recursion. -/
def sumApprovedPaid : List PayoutDoc → String → ℚ
  | [], _ => 0
  | p :: rest, sid =>
      (if p.school_id = sid ∧ (p.status = "approved" ∨ p.status = "paid")
        then p.amount.getD 0 else 0) + sumApprovedPaid rest sid

/-! ## Helper documents produced by the modelled inserts -/

/-- The `school` document written by `insertSchool`. -/
def schoolDocOf (nid : BsonId) (s : School) : SchoolDoc :=
  { mongoId := nid, name := s.name, email := s.email, password := s.password,
    address := s.address, phone := s.phone }

/-- The `order` document written by `insertOrder`. -/
def orderDocOf (o : Order) : OrderDoc :=
  { school_id := o.school_id, order_number := o.order_number,
    amount := some o.amount, status := o.status, items := o.items }

/-- The `payoutrequest` document written by `insertPayout`; note that its
`status` is the caller-supplied `req.status`, not a forced `"pending"`. -/
def payoutDocOf (p : PayoutRequest) : PayoutDoc :=
  { school_id := p.school_id, amount := some p.amount, bank_name := p.bank_name,
    account_holder := p.account_holder, account_number := p.account_number,
    ifsc := p.ifsc, status := p.status }

/-- The store after a successful signup: the new school document appended. -/
def signupStore (st : Store) (nid : BsonId) (s : School) : Store :=
  { st with school := st.school ++ [schoolDocOf nid s] }

/-! ## Bridge lemmas: the handler's filter scans equal the recursive sums -/

theorem length_filter_eq_countPaid (l : List OrderDoc) (sid : String) :
    (l.filter (fun o => decide (o.school_id = sid) && decide (o.status = "paid"))).length
      = countPaid l sid := by
  induction l with
  | nil => rfl
  | cons o rest ih =>
      by_cases h1 : o.school_id = sid <;> by_cases h2 : o.status = "paid" <;>
        simp [countPaid, List.filter_cons, h1, h2, ih, Nat.add_comm]

theorem sum_filter_eq_sumPaid (l : List OrderDoc) (sid : String) :
    ((l.filter (fun o => decide (o.school_id = sid) && decide (o.status = "paid"))).map
        (fun o => o.amount.getD 0)).sum
      = sumPaid l sid := by
  induction l with
  | nil => rfl
  | cons o rest ih =>
      by_cases h1 : o.school_id = sid <;> by_cases h2 : o.status = "paid" <;>
        simp [sumPaid, List.filter_cons, h1, h2, ih]

theorem sum_filter_eq_sumApprovedPaid (l : List PayoutDoc) (sid : String) :
    ((l.filter (fun p => decide (p.school_id = sid) &&
          (decide (p.status = "approved") || decide (p.status = "paid")))).map
        (fun p => p.amount.getD 0)).sum
      = sumApprovedPaid l sid := by
  induction l with
  | nil => rfl
  | cons p rest ih =>
      by_cases h1 : p.school_id = sid <;> by_cases h2 : p.status = "approved" <;>
        by_cases h3 : p.status = "paid" <;>
        simp [sumApprovedPaid, List.filter_cons, h1, h2, h3, ih]

theorem countPaid_sumPaid_eq_zero (l : List OrderDoc) (sid : String)
    (h : ∀ o ∈ l, ¬(o.school_id = sid ∧ o.status = "paid")) :
    countPaid l sid = 0 ∧ sumPaid l sid = 0 := by
  induction l with
  | nil => exact ⟨rfl, rfl⟩
  | cons o rest ih =>
      have ho := h o (List.mem_cons_self o rest)
      have hrest := ih (fun x hx => h x (List.mem_cons_of_mem o hx))
      simp [countPaid, sumPaid, ho, hrest.1, hrest.2]

/-- C1: For every school identifier, `revenue` returns `total_orders` equal to
the count of that school's paid orders, `total_revenue` equal to the sum of
their amounts (0 and 0.0 when there are no paid orders), and `pending_payout`
equal to `max(total_revenue - paid_out, 0)` where `paid_out` sums the amounts
of the school's payout requests with status "approved" or "paid". -/
theorem revenue_reconciliation (st : Store) (sid : String) :
    revenue (some st) sid =
      .ok { total_orders := countPaid st.order sid,
            total_revenue := sumPaid st.order sid,
            pending_payout :=
              max (sumPaid st.order sid - sumApprovedPaid st.payoutrequest sid) 0 }
    ∧ ((∀ o ∈ st.order, ¬(o.school_id = sid ∧ o.status = "paid")) →
        countPaid st.order sid = 0 ∧ sumPaid st.order sid = 0) := by
  refine ⟨?_, countPaid_sumPaid_eq_zero st.order sid⟩
  simp [revenue, length_filter_eq_countPaid, sum_filter_eq_sumPaid,
    sum_filter_eq_sumApprovedPaid]

/-- Witness store for C1: one order, not paid. -/
def storeC1 : Store :=
  { school := [],
    order := [{ school_id := "S", order_number := "o1", amount := some 30,
                status := "pending" }],
    payoutrequest := [] }

theorem revenue_reconciliation_witness :
    revenue (some storeC1) "S" =
      Except.ok { total_orders := countPaid storeC1.order "S",
                  total_revenue := sumPaid storeC1.order "S",
                  pending_payout :=
                    max (sumPaid storeC1.order "S" -
                      sumApprovedPaid storeC1.payoutrequest "S") 0 }
    ∧ countPaid storeC1.order "S" = 0 ∧ sumPaid storeC1.order "S" = 0 :=
  ⟨(revenue_reconciliation storeC1 "S").1,
   (revenue_reconciliation storeC1 "S").2 (by decide)⟩

/-- The store of the spec's worked example: school "S" with orders
[paid $100, paid $50, pending $30] and payouts [approved $40, pending $20]. -/
def storeC2 : Store :=
  { school := [],
    order := [{ school_id := "S", order_number := "o1", amount := some 100,
                status := "paid" },
              { school_id := "S", order_number := "o2", amount := some 50,
                status := "paid" },
              { school_id := "S", order_number := "o3", amount := some 30,
                status := "pending" }],
    payoutrequest := [{ school_id := "S", amount := some 40, status := "approved" },
                      { school_id := "S", amount := some 20, status := "pending" }] }

/-- C2: On the spec's example store, `revenue` returns `total_orders = 2`,
`total_revenue = 150.0` and `pending_payout = 110.0`, excluding the pending
order and the pending payout. -/
theorem revenue_example_school_S :
    revenue (some storeC2) "S" =
      Except.ok { total_orders := 2, total_revenue := 150, pending_payout := 110 } := by
  simp [revenue, storeC2, List.filter_cons]
  norm_num

/-- C3: the `pending_payout` figure is never negative: for every store contents with
non-negative order and payout amounts (and in fact unconditionally, by the
`max(·, 0)` clamp), a successful `revenue` response has
`0 ≤ pending_payout`, including when approved/paid payouts exceed revenue. -/
theorem pending_payout_nonneg (st : Store) (sid : String) (r : RevenueSummary)
    (h1 : ∀ o ∈ st.order, 0 ≤ o.amount.getD 0)
    (h2 : ∀ p ∈ st.payoutrequest, 0 ≤ p.amount.getD 0)
    (hr : revenue (some st) sid = .ok r) :
    0 ≤ r.pending_payout := by
  simp only [revenue, Except.ok.injEq] at hr
  subst hr
  exact le_max_right _ _

/-- Witness store for C3: approved/paid payouts ($50) exceed revenue ($10). -/
def storeC3 : Store :=
  { school := [],
    order := [{ school_id := "S", order_number := "o1", amount := some 10,
                status := "paid" }],
    payoutrequest := [{ school_id := "S", amount := some 50, status := "paid" }] }

theorem revenue_storeC3_eval :
    revenue (some storeC3) "S" = Except.ok ⟨1, 10, 0⟩ := by
  simp [revenue, storeC3, List.filter_cons]
  norm_num

theorem pending_payout_nonneg_witness :
    (∀ o ∈ storeC3.order, 0 ≤ o.amount.getD 0)
    ∧ (∀ p ∈ storeC3.payoutrequest, 0 ≤ p.amount.getD 0)
    ∧ 0 ≤ (RevenueSummary.mk 1 10 0).pending_payout :=
  ⟨by decide, by decide,
   pending_payout_nonneg storeC3 "S" ⟨1, 10, 0⟩ (by decide) (by decide)
     revenue_storeC3_eval⟩

/-! ## C4: payout creation response vs written record -/

/-- Store with one school whose `_id` is the raw string "S". -/
def storeC4 : Store :=
  { school := [{ mongoId := BsonId.str "S", name := "N", email := "n@x.com",
                 password := "secret1" }],
    order := [], payoutrequest := [] }

/-- A payout request whose caller-sent status is "approved", not "pending". -/
def reqC4 : PayoutRequest :=
  { school_id := "S", amount := 5, bank_name := "B", account_holder := "H",
    account_number := "A", ifsc := "I", status := "approved" }

def nidC4 : BsonId := BsonId.oid "0123456789abcdef01234567"

/-- C4 counterexample: `create_payout` does NOT force the written record's
status to "pending". With a caller-sent status "approved" the call succeeds,
the response says "pending", but the document written to the `payoutrequest`
collection carries status "approved". -/
theorem create_payout_keeps_caller_status :
    create_payout (some storeC4) nidC4 reqC4 =
      Except.ok ({ storeC4 with payoutrequest := [payoutDocOf reqC4] },
                 { request_id := "0123456789abcdef01234567", status := "pending" })
    ∧ (payoutDocOf reqC4).status = "approved"
    ∧ (payoutDocOf reqC4).status ≠ "pending" :=
  ⟨rfl, rfl, by decide⟩

/-- C4 (amended): for every payout request whose school_id resolves to an
existing school, `create_payout` writes the record with the caller-supplied
status (the schema merely defaults it to "pending" when the field is omitted)
and returns the generated id together with the literal status "pending",
regardless of what status the caller sent. -/
theorem create_payout_resp_pending_writes_caller_status
    (st : Store) (nid : BsonId) (req : PayoutRequest)
    (h : (typedLookup st req.school_id).isSome = true ∨
         (rawLookup st req.school_id).isSome = true) :
    create_payout (some st) nid req =
      Except.ok ({ st with payoutrequest := st.payoutrequest ++ [payoutDocOf req] },
                 { request_id := nid.render, status := "pending" }) := by
  unfold create_payout insertPayout
  rcases h with h | h
  · obtain ⟨s, hs⟩ := Option.isSome_iff_exists.mp h
    simp [hs, payoutDocOf]
  · obtain ⟨s, hs⟩ := Option.isSome_iff_exists.mp h
    cases htyped : typedLookup st req.school_id with
    | none => simp [htyped, hs, payoutDocOf]
    | some s' => simp [htyped, payoutDocOf]

theorem create_payout_resp_pending_witness :
    create_payout (some storeC4) nidC4 reqC4 =
      Except.ok ({ storeC4 with
                     payoutrequest := storeC4.payoutrequest ++ [payoutDocOf reqC4] },
                 { request_id := nidC4.render, status := "pending" }) :=
  create_payout_resp_pending_writes_caller_status storeC4 nidC4 reqC4
    (Or.inr (by decide))

/-- C5: the two-step school lookup of `create_payout`: the typed lookup only
applies to a well-formed ObjectId, the raw-string lookup is the fallback, and
the call fails with 404 "School not found" if and only if neither lookup finds
a school (and succeeds otherwise). -/
theorem create_payout_lookup_policy (st : Store) (nid : BsonId) (req : PayoutRequest) :
    (isValidObjectId req.school_id = false → typedLookup st req.school_id = none)
    ∧ (create_payout (some st) nid req =
          Except.error (.http 404 "School not found")
        ↔ typedLookup st req.school_id = none ∧ rawLookup st req.school_id = none)
    ∧ ((create_payout (some st) nid req).isOk = true
        ↔ (typedLookup st req.school_id).isSome = true
          ∨ (rawLookup st req.school_id).isSome = true) := by
  refine ⟨fun h => by simp [typedLookup, h], ?_, ?_⟩ <;>
    unfold create_payout insertPayout <;>
    cases htyped : typedLookup st req.school_id <;>
      cases hraw : rawLookup st req.school_id <;>
        simp [htyped, hraw, Except.isOk, Except.toBool]

/-- Witness store for C5: no school at all, so both lookups fail. -/
def storeC5 : Store := { school := [], order := [], payoutrequest := [] }

theorem create_payout_lookup_policy_witness :
    (isValidObjectId reqC4.school_id = false →
      typedLookup storeC5 reqC4.school_id = none)
    ∧ (create_payout (some storeC5) nidC4 reqC4 =
          Except.error (.http 404 "School not found")
        ↔ typedLookup storeC5 reqC4.school_id = none
          ∧ rawLookup storeC5 reqC4.school_id = none) :=
  ⟨(create_payout_lookup_policy storeC5 nidC4 reqC4).1,
   (create_payout_lookup_policy storeC5 nidC4 reqC4).2.1⟩

/-! ## C6: order creation never checks the school -/

def orderC6 : Order :=
  { school_id := "ghost-school", order_number := "o1", amount := 7,
    status := "paid" }

def nidC6 : BsonId := BsonId.oid "aaaaaaaaaaaaaaaaaaaaaaaa"

/-- C6: the handler `create_order` writes the record and returns the generated id for every
store — including stores containing no school matching `school_id` — and never
fails with the 404 "School not found" error, in contrast to `create_payout`. -/
theorem create_order_no_school_check (st : Store) (nid : BsonId) (o : Order) :
    create_order (some st) nid o =
      Except.ok ({ st with order := st.order ++ [orderDocOf o] }, nid.render)
    ∧ ∀ db, create_order db nid o ≠ Except.error (.http 404 "School not found") := by
  constructor
  · rfl
  · intro db
    cases db <;> simp [create_order, insertOrder]

theorem create_order_no_school_check_witness :
    create_order (some storeC5) nidC6 orderC6 =
      Except.ok ({ storeC5 with order := storeC5.order ++ [orderDocOf orderC6] },
                 nidC6.render)
    ∧ create_order none nidC6 orderC6 ≠
        Except.error (.http 404 "School not found") :=
  ⟨(create_order_no_school_check storeC5 nidC6 orderC6).1,
   (create_order_no_school_check storeC5 nidC6 orderC6).2 none⟩

/-- C7: with the store handle never established (`db = none`), every endpoint
that depends on the store — signup, login, order listing, order creation,
revenue, payout listing and payout creation — returns the 500-equivalent
"Database not configured" fault instead of proceeding. (`GET /` does not
touch the store and `GET /test` is the diagnostic that reports the missing
store in its body rather than faulting.) -/
theorem store_not_configured_faults (nid : BsonId) (s : School) (o : Order)
    (req : PayoutRequest) (lr : LoginRequest) (sid : String) :
    signup none nid s = Except.error (.http 500 "Database not configured")
    ∧ login none lr = Except.error (.http 500 "Database not configured")
    ∧ list_orders none sid = Except.error (.http 500 "Database not configured")
    ∧ create_order none nid o = Except.error (.http 500 "Database not configured")
    ∧ revenue none sid = Except.error (.http 500 "Database not configured")
    ∧ list_payouts none sid = Except.error (.http 500 "Database not configured")
    ∧ create_payout none nid req =
        Except.error (.http 500 "Database not configured") :=
  ⟨rfl, rfl, rfl, rfl, rfl, rfl, rfl⟩

/-! ## C8: signup conflict check and login round trip -/

theorem signup_dup_find_eq_none (st : Store) (s : School)
    (h : ∀ d ∈ st.school, d.email ≠ s.email) :
    st.school.find? (fun d => decide (d.email = s.email)) = none := by
  rw [List.find?_eq_none]
  intro d hd
  simp [h d hd]

/-- C8: signup fails with the 400 conflict error exactly when a school with
the same email (exact, case-sensitive string match) exists; otherwise it
inserts the school and returns id, name and email, a subsequent login with the
same email and password succeeds with the same data, and a login with the
correct email but any wrong password fails with the 401 error. -/
theorem signup_conflict_and_login_round_trip (st : Store) (nid : BsonId) (s : School) :
    (signup (some st) nid s = Except.error (.http 400 "Email already registered")
      ↔ ∃ d ∈ st.school, d.email = s.email)
    ∧ ((∀ d ∈ st.school, d.email ≠ s.email) →
        signup (some st) nid s =
          Except.ok (signupStore st nid s,
            { school_id := nid.render, name := s.name, email := s.email })
        ∧ login (some (signupStore st nid s))
            { email := s.email, password := s.password } =
            Except.ok { school_id := nid.render, name := s.name, email := s.email }
        ∧ ∀ p, p ≠ s.password →
            login (some (signupStore st nid s)) { email := s.email, password := p } =
              Except.error (.http 401 "Invalid credentials")) := by
  constructor
  · unfold signup insertSchool
    cases hfind : st.school.find? (fun d => decide (d.email = s.email)) with
    | none =>
        simp only [hfind]
        rw [List.find?_eq_none] at hfind
        simp only [decide_eq_true_eq] at hfind
        simp
        intro d hd
        exact fun he => hfind d hd he
    | some d =>
        have hmem := List.mem_of_find?_eq_some hfind
        have hpred := List.find?_some hfind
        simp only [decide_eq_true_eq] at hpred
        simp only [hfind]
        simp
        exact ⟨d, hmem, hpred⟩
  · intro h
    have hnone := signup_dup_find_eq_none st s h
    have hsign : signup (some st) nid s =
        Except.ok (signupStore st nid s,
          { school_id := nid.render, name := s.name, email := s.email }) := by
      unfold signup insertSchool
      simp only [hnone]
      rfl
    have hsch : (signupStore st nid s).school = st.school ++ [schoolDocOf nid s] := rfl
    refine ⟨hsign, ?_, ?_⟩
    · have h1 : st.school.find?
          (fun d => decide (d.email = s.email) && decide (d.password = s.password))
            = none := by
        rw [List.find?_eq_none]
        intro d hd
        simp [h d hd]
      have hfind : (signupStore st nid s).school.find?
          (fun d => decide (d.email = s.email) && decide (d.password = s.password))
            = some (schoolDocOf nid s) := by
        rw [hsch, List.find?_append, h1]
        simp [schoolDocOf]
      simp [login, hfind, schoolDocOf]
    · intro p hp
      have h1 : st.school.find?
          (fun d => decide (d.email = s.email) && decide (d.password = p))
            = none := by
        rw [List.find?_eq_none]
        intro d hd
        simp [h d hd]
      have h2 : [schoolDocOf nid s].find?
          (fun d => decide (d.email = s.email) && decide (d.password = p))
            = none := by
        simp [schoolDocOf, Ne.symm hp]
      have hfind : (signupStore st nid s).school.find?
          (fun d => decide (d.email = s.email) && decide (d.password = p))
            = none := by
        rw [hsch, List.find?_append, h1, h2]
        rfl
      simp [login, hfind]

/-- Witness data for C8: an empty store and a fresh school. -/
def schoolC8 : School :=
  { name := "N", email := "n@x.com", password := "secret1" }

theorem signup_login_round_trip_witness :
    (signup (some storeC5) nidC6 schoolC8 =
        Except.error (.http 400 "Email already registered")
      ↔ ∃ d ∈ storeC5.school, d.email = schoolC8.email)
    ∧ signup (some storeC5) nidC6 schoolC8 =
        Except.ok (signupStore storeC5 nidC6 schoolC8,
          { school_id := nidC6.render, name := schoolC8.name,
            email := schoolC8.email })
    ∧ login (some (signupStore storeC5 nidC6 schoolC8))
        { email := schoolC8.email, password := schoolC8.password } =
        Except.ok { school_id := nidC6.render, name := schoolC8.name,
                    email := schoolC8.email }
    ∧ login (some (signupStore storeC5 nidC6 schoolC8))
        { email := schoolC8.email, password := "wrong-pass" } =
        Except.error (.http 401 "Invalid credentials") := by
  have h := signup_conflict_and_login_round_trip storeC5 nidC6 schoolC8
  have h2 := h.2 (by decide)
  exact ⟨h.1, h2.1, h2.2.1, h2.2.2 "wrong-pass" (by decide)⟩

/-! ## C9: Pydantic validation contract -/

/-- C9: validation rejects, naming the offending field and before any store
write (the pipeline returns the validation error, so no handler and no insert
runs), every Order or PayoutRequest with a negative amount and every School
with an invalid email or a password shorter than 6 characters; a non-negative
amount never fails validation, and a School with a valid email and a password
of length ≥ 6 passes. `emailOK` is the external email-syntax validator. -/
theorem validation_contract (emailOK : String → Bool) (o : Order)
    (p : PayoutRequest) (s : School) :
    (o.amount < 0 → validate_order o = Except.error "amount"
      ∧ ∀ db nid, post_order db nid o = Except.error (.validation "amount"))
    ∧ (0 ≤ o.amount → validate_order o = Except.ok o)
    ∧ (p.amount < 0 → validate_payout_req p = Except.error "amount"
      ∧ ∀ db nid, post_payout db nid p = Except.error (.validation "amount"))
    ∧ (0 ≤ p.amount → validate_payout_req p = Except.ok p)
    ∧ (emailOK s.email = false →
        validate_school emailOK s = Except.error "email"
        ∧ ∀ db nid, post_signup emailOK db nid s =
            Except.error (.validation "email"))
    ∧ (emailOK s.email = true → s.password.length < 6 →
        validate_school emailOK s = Except.error "password"
        ∧ ∀ db nid, post_signup emailOK db nid s =
            Except.error (.validation "password"))
    ∧ (emailOK s.email = true → 6 ≤ s.password.length →
        validate_school emailOK s = Except.ok s) := by
  refine ⟨fun h => ⟨?_, fun db nid => ?_⟩, fun h => ?_,
          fun h => ⟨?_, fun db nid => ?_⟩, fun h => ?_,
          fun h => ⟨?_, fun db nid => ?_⟩, fun h1 h2 => ⟨?_, fun db nid => ?_⟩,
          fun h1 h2 => ?_⟩ <;>
    simp [validate_order, validate_payout_req, validate_school, post_order,
      post_payout, post_signup, *, not_lt.mpr, not_lt_of_le]

/-- Witness data for C9. -/
def badOrderC9 : Order := { school_id := "S", order_number := "o1", amount := -1 }

def badPayoutC9 : PayoutRequest :=
  { school_id := "S", amount := -3, bank_name := "B", account_holder := "H",
    account_number := "A", ifsc := "I" }

def badSchoolC9 : School :=
  { name := "N", email := "not-an-email", password := "abc" }

/-- A concrete stand-in for the email-syntax validator. -/
def emailOKC9 : String → Bool := fun e => e.data.contains '@'

theorem validation_contract_witness :
    (validate_order badOrderC9 = Except.error "amount"
      ∧ ∀ db nid, post_order db nid badOrderC9 = Except.error (.validation "amount"))
    ∧ validate_payout_req badPayoutC9 = Except.error "amount"
    ∧ validate_order { badOrderC9 with amount := 2 } =
        Except.ok { badOrderC9 with amount := 2 }
    ∧ (validate_school emailOKC9 badSchoolC9 = Except.error "email"
      ∧ ∀ db nid, post_signup emailOKC9 db nid badSchoolC9 =
          Except.error (.validation "email"))
    ∧ validate_school emailOKC9 { badSchoolC9 with email := "n@x.com" } =
        Except.error "password"
    ∧ validate_school emailOKC9
        { badSchoolC9 with email := "n@x.com", password := "secret1" } =
        Except.ok { badSchoolC9 with email := "n@x.com", password := "secret1" } := by
  have h1 := validation_contract emailOKC9 badOrderC9 badPayoutC9 badSchoolC9
  have h2 := validation_contract emailOKC9 { badOrderC9 with amount := 2 }
    badPayoutC9 { badSchoolC9 with email := "n@x.com" }
  have h3 := validation_contract emailOKC9 badOrderC9 badPayoutC9
    { badSchoolC9 with email := "n@x.com", password := "secret1" }
  exact ⟨h1.1 (by decide), (h1.2.2.1 (by decide)).1,
         h2.2.1 (by decide),
         h1.2.2.2.2.1 (by decide),
         (h2.2.2.2.2.2.1 (by decide) (by decide)).1,
         h3.2.2.2.2.2.2 (by decide) (by decide)⟩

/-! ## C10: stored documents lacking the amount field -/

theorem revenue_storeC5_eval :
    revenue (some storeC5) "S" = Except.ok ⟨0, 0, 0⟩ := by
  simp [revenue, storeC5]

/-- C10: a stored paid order lacking `amount` still counts toward
`total_orders` but contributes 0 to `total_revenue`; an approved/paid payout
document lacking `amount` contributes 0 to `paid_out`; and `revenue` never
fails on such documents. -/
theorem revenue_missing_amounts (st : Store) (sid : String)
    (o : OrderDoc) (p : PayoutDoc)
    (ho1 : o.school_id = sid) (ho2 : o.status = "paid") (ho3 : o.amount = none)
    (hp1 : p.school_id = sid) (hp2 : p.status = "approved" ∨ p.status = "paid")
    (hp3 : p.amount = none) :
    (revenue (some { st with order := o :: st.order,
                             payoutrequest := p :: st.payoutrequest }) sid).isOk
      = true
    ∧ ∀ n r pd, revenue (some st) sid = Except.ok ⟨n, r, pd⟩ →
        revenue (some { st with order := o :: st.order,
                                payoutrequest := p :: st.payoutrequest }) sid =
          Except.ok ⟨n + 1, r, pd⟩ := by
  constructor
  · simp [revenue, Except.isOk, Except.toBool]
  · intro n r pd h
    simp only [revenue, Except.ok.injEq, RevenueSummary.mk.injEq] at h
    obtain ⟨hn, hr, hpd⟩ := h
    rw [hr] at hpd
    rcases hp2 with h2 | h2 <;>
      simp [revenue, List.filter_cons, ho1, ho2, ho3, hp1, hp3, h2, hn, hr, hpd]

/-- Witness documents for C10: paid order and approved payout, both with no
amount field, on top of the empty store. -/
def oC10 : OrderDoc :=
  { school_id := "S", order_number := "ox", amount := none, status := "paid" }

def pC10 : PayoutDoc := { school_id := "S", amount := none, status := "approved" }

theorem revenue_missing_amounts_witness :
    (revenue (some { storeC5 with order := oC10 :: storeC5.order,
                                   payoutrequest := pC10 :: storeC5.payoutrequest })
        "S").isOk = true
    ∧ revenue (some { storeC5 with order := oC10 :: storeC5.order,
                                   payoutrequest := pC10 :: storeC5.payoutrequest })
        "S" = Except.ok ⟨0 + 1, 0, 0⟩ := by
  have h := revenue_missing_amounts storeC5 "S" oC10 pC10 rfl rfl rfl rfl
    (Or.inl rfl) rfl
  exact ⟨h.1, h.2 0 0 0 revenue_storeC5_eval⟩
